import Mathlib

/-!
# Verification of the noura-core scheduling coordination layer

Shallow embedding of `src/modules/scheduling/SchedulingService.ts`, the stub
engines in `src/modules/scheduling/engines/`, the scheduling types in
`src/modules/scheduling/types.ts` and the policy defaults in
`src/core/policies.ts`, together with theorems settling the claims about
request validation, policy enhancement, engine selection and error
propagation.

Modelling conventions:
* JavaScript numbers that hold durations/timestamps are modelled as `Int`.
* Optional fields (`durationMinutes?`, `earliestISO?`, ...) are `Option`s.
* JavaScript truthiness is explicit: a string is truthy iff non-empty, a
  number is truthy iff non-zero; `x && y` / `x || y` guards from the source
  are translated with these truthiness tests spelled out.
* `new Date(s)` is abstracted by a parameter `parseDate : String → Option Int`
  (`none` models an invalid date, whose `getTime()` is `NaN`).  A `>=`
  comparison involving an invalid date is `false`, exactly as NaN
  comparisons are in JavaScript; the embedding encodes that case split.
* `throw` / `try-catch` become `Except`: each `throw new Error(...)` site in
  the source is one constructor of `SchedulingError`; the coordinator's
  `catch { log; throw error }` blocks rethrow unchanged and so are identity
  on the error path.
* To reason about *whether* the engine was invoked, the coordinator
  operations are embedded as `...Run` functions that also return the list of
  arguments on which `engine.propose` / `engine.book` was called, the final
  value of the coordinator's `engine` field (the source never reassigns it
  after the constructor), and the final value of the caller's `request`
  object (the source never writes to it; `enhanceRequest` builds a fresh
  object with an object spread).
-/

namespace NouraCore

/-! ## Data model (`src/modules/scheduling/types.ts`) -/

/-- `Attendee` from `types.ts`: email is required, name and the
required-flag are optional. -/
structure Attendee where
  email : String
  name : Option String := none
  required : Option Bool := none
  deriving Repr, DecidableEq

/-- `TimeWindow` from `types.ts`: ISO-8601 strings for start and end. -/
structure TimeWindow where
  startISO : String
  endISO : String
  deriving Repr, DecidableEq

/-- `MeetingRequest` from `types.ts`.  `constraints` is an open key-value
map in the source (`Record<string, unknown>`); it is modelled as an
association list of opaque string values, which is enough to state that the
coordinator carries it through unchanged. -/
structure MeetingRequest where
  subject : String
  attendees : List Attendee
  durationMinutes : Option Int := none
  earliestISO : Option String := none
  latestISO : Option String := none
  constraints : List (String × String) := []
  deriving Repr, DecidableEq

/-- `Proposal` from `types.ts`: a scored candidate slot. -/
structure Proposal where
  slot : TimeWindow
  score : Int
  reason : Option String := none
  deriving Repr, DecidableEq

/-- `BookingResult` from `types.ts`: the engine-assigned event id. -/
structure BookingResult where
  eventId : String
  deriving Repr, DecidableEq

/-! ## Policies (`src/core/policies.ts`) -/

/-- Business-hours block of `SchedulingPolicy` (fields `start`/`end` in the
source are renamed because `end` is a Lean keyword). -/
structure BusinessHours where
  startTime : String
  endTime : String
  timezone : String
  deriving Repr, DecidableEq

/-- `SchedulingPolicy` from `policies.ts`. -/
structure SchedulingPolicy where
  businessHours : BusinessHours
  minBufferMinutes : Int
  maxMeetingsPerDay : Int
  defaultDurationMinutes : Int
  autoApproveTrustedContacts : Bool
  deriving Repr, DecidableEq

/-- The `schedulingPolicy` constant from `policies.ts` (the timezone comes
from `NOURA_IDENTITY.DEFAULT_TIMEZONE`, default `"Asia/Dubai"`). -/
def schedulingPolicy : SchedulingPolicy :=
  { businessHours :=
      { startTime := "10:00", endTime := "18:00", timezone := "Asia/Dubai" }
    minBufferMinutes := 15
    maxMeetingsPerDay := 3
    defaultDurationMinutes := 45
    autoApproveTrustedContacts := true }

/-- The exported `Policies` object from `policies.ts`. -/
structure PoliciesShape where
  scheduling : SchedulingPolicy
  deriving Repr, DecidableEq

def Policies : PoliciesShape := { scheduling := schedulingPolicy }

/-! ## Errors

Each constructor is one `throw new Error(...)` site of
`SchedulingService.ts`; `engineFailure` stands for any error raised inside
an engine's `propose`/`book`. -/

inductive SchedulingError where
  /-- `'Meeting subject is required'` -/
  | subjectRequired
  /-- `'At least one attendee is required'` -/
  | attendeeRequired
  /-- `` `Invalid email address for attendee: ${attendee.email}` `` -/
  | invalidEmail (email : String)
  /-- `'Meeting duration must be positive'` -/
  | durationNotPositive
  /-- `'Earliest time must be before latest time'` -/
  | earliestNotBeforeLatest
  /-- `'Invalid time slot format'` -/
  | invalidSlotFormat
  /-- `'Meeting start time must be before end time'` -/
  | startNotBeforeEnd
  /-- an error raised by the engine backend -/
  | engineFailure (message : String)
  deriving Repr, DecidableEq

/-! ## JavaScript string primitives

`String.prototype.trim` and `String.prototype.includes` are modelled on the
character list so that they compute by reduction. -/

/-- The ASCII part of the whitespace class stripped by JS
`String.prototype.trim`. -/
def isWhitespaceChar (c : Char) : Bool :=
  c = ' ' || c = '\t' || c = '\n' || c = '\r'

/-- JS `String.prototype.trim`: the character list with leading and
trailing whitespace removed. -/
def jsTrim (s : String) : List Char :=
  ((s.data.dropWhile isWhitespaceChar).reverse.dropWhile
    isWhitespaceChar).reverse

/-- JS `String.prototype.includes` specialised to a one-character needle
(the source only searches for `'@'`). -/
def jsIncludesChar (s : String) (c : Char) : Bool :=
  s.data.contains c

/-! ## JavaScript truthiness helpers -/

/-- Truthiness of an optional string: `undefined` and `""` are falsy. -/
def optStrTruthy : Option String → Bool
  | none => false
  | some s => s ≠ ""

/-- Truthiness of an optional number: `undefined` and `0` are falsy. -/
def optIntTruthy : Option Int → Bool
  | none => false
  | some n => n ≠ 0

/-! ## Validation (`SchedulingService.validateMeetingRequest` /
`validateTimeWindow`) -/

/-- The `for (const attendee of request.attendees)` loop: the first attendee
whose email is falsy or lacks an `'@'`, if any.  (An empty string is falsy
and also lacks `'@'`, so the two disjuncts of the source guard coincide on
it.) -/
def findInvalidAttendee : List Attendee → Option Attendee
  | [] => none
  | a :: rest =>
      if a.email = "" ∨ ¬ jsIncludesChar a.email '@' then some a
      else findInvalidAttendee rest

/-- `validateMeetingRequest` from `SchedulingService.ts`, lines 135-162.
`parseDate` abstracts `new Date(s).getTime()` (`none` = invalid date / NaN).
The final guard `request.earliestISO && request.latestISO` is the JS
truthiness test (present *and* non-empty); `earliest >= latest` on `Date`
objects is false whenever either date is invalid, hence the `Except.ok` in
the catch-all parse branch. -/
def validateMeetingRequest (parseDate : String → Option Int)
    (request : MeetingRequest) : Except SchedulingError Unit :=
  if request.subject = "" ∨ (jsTrim request.subject).length = 0 then
    Except.error SchedulingError.subjectRequired
  else if request.attendees.length = 0 then
    Except.error SchedulingError.attendeeRequired
  else
    match findInvalidAttendee request.attendees with
    | some a => Except.error (SchedulingError.invalidEmail a.email)
    | none =>
        if optIntTruthy request.durationMinutes ∧
            request.durationMinutes.getD 0 ≤ 0 then
          Except.error SchedulingError.durationNotPositive
        else if optStrTruthy request.earliestISO ∧
            optStrTruthy request.latestISO then
          match parseDate (request.earliestISO.getD ""),
              parseDate (request.latestISO.getD "") with
          | some earliest, some latest =>
              if earliest ≥ latest then
                Except.error SchedulingError.earliestNotBeforeLatest
              else Except.ok ()
          | _, _ => Except.ok ()
        else Except.ok ()

/-- `validateTimeWindow` from `SchedulingService.ts`, lines 167-178: the
`isNaN` guard on either parse comes first, then `start >= end`. -/
def validateTimeWindow (parseDate : String → Option Int)
    (slot : TimeWindow) : Except SchedulingError Unit :=
  match parseDate slot.startISO, parseDate slot.endISO with
  | some startT, some endT =>
      if startT ≥ endT then Except.error SchedulingError.startNotBeforeEnd
      else Except.ok ()
  | _, _ => Except.error SchedulingError.invalidSlotFormat

/-! ## Enhancement (`SchedulingService.enhanceRequest`) -/

/-- `enhanceRequest` from `SchedulingService.ts`, lines 183-188:
`{...request, durationMinutes: request.durationMinutes || default}`.
The `||` keeps a truthy (non-zero) supplied value and otherwise substitutes
the policy default; the object spread carries every other field over. -/
def enhanceRequest (request : MeetingRequest) : MeetingRequest :=
  { request with
      durationMinutes :=
        some (match request.durationMinutes with
          | some d => if d = 0 then Policies.scheduling.defaultDurationMinutes else d
          | none => Policies.scheduling.defaultDurationMinutes) }

/-! ## Engines (`engines/sidekickEngine.ts`, `engines/googleCalendarEngine.ts`)

An engine is its `propose`/`book` behaviour plus its class name (the source
reads `this.engine.constructor.name` for logging).  The two shipped engines
are stubs: empty proposals and a placeholder event id. -/

structure SchedulingEngine where
  name : String
  propose : MeetingRequest → Except SchedulingError (List Proposal)
  book : MeetingRequest → TimeWindow → Except SchedulingError BookingResult

/-- The `SidekickEngine` stub: returns `[]` from `propose` and
`{eventId: 'TBD'}` from `book`. -/
def SidekickEngine : SchedulingEngine :=
  { name := "SidekickEngine"
    propose := fun _ => Except.ok []
    book := fun _ _ => Except.ok { eventId := "TBD" } }

/-- The `GoogleCalendarEngine` stub: returns `[]` from `propose` and
`{eventId: 'TBD'}` from `book`. -/
def GoogleCalendarEngine : SchedulingEngine :=
  { name := "GoogleCalendarEngine"
    propose := fun _ => Except.ok []
    book := fun _ _ => Except.ok { eventId := "TBD" } }

/-- `createEngine` from `SchedulingService.ts`, lines 113-123:
`process.env['ENABLE_SIDEKICK'] === 'true'` selects the Sidekick engine,
anything else the Google Calendar engine.  The environment variable is the
explicit `Option String` argument. -/
def createEngine (enableSidekick : Option String) : SchedulingEngine :=
  if enableSidekick = some "true" then SidekickEngine
  else GoogleCalendarEngine

/-! ## The coordinator (`SchedulingService`) -/

/-- The coordinator's state: its only field besides the logger is the
engine reference assigned once in the constructor. -/
structure SchedulingService where
  engine : SchedulingEngine

/-- The `SchedulingService` constructor: `this.engine = this.createEngine()`,
reading the `ENABLE_SIDEKICK` environment value. -/
def SchedulingService.construct (enableSidekick : Option String) :
    SchedulingService :=
  { engine := createEngine enableSidekick }

/-- `getEngineType` from `SchedulingService.ts`:
`this.engine.constructor.name`. -/
def SchedulingService.getEngineType (svc : SchedulingService) : String :=
  svc.engine.name

/-- Instrumented outcome of `proposeSlots`: the returned/thrown value, the
list of arguments `engine.propose` was called on, the final value of the
coordinator's `engine` field, and the final value of the caller's `request`
object. -/
structure ProposeRun where
  result : Except SchedulingError (List Proposal)
  proposeCalls : List MeetingRequest
  finalEngine : SchedulingEngine
  callerRequest : MeetingRequest

/-- Instrumented outcome of `confirmSlot`. -/
structure ConfirmRun where
  result : Except SchedulingError BookingResult
  bookCalls : List (MeetingRequest × TimeWindow)
  finalEngine : SchedulingEngine
  callerRequest : MeetingRequest

/-- `proposeSlots` from `SchedulingService.ts`, lines 42-69, instrumented.
The body validates, enhances, then awaits `engine.propose(enhancedRequest)`;
the `catch` block logs and rethrows the same error, so the error path is the
identity.  No statement assigns to `this.engine` or to any field of
`request`, so those components are the inputs in every branch. -/
def SchedulingService.proposeSlotsRun (svc : SchedulingService)
    (parseDate : String → Option Int) (request : MeetingRequest) :
    ProposeRun :=
  match validateMeetingRequest parseDate request with
  | Except.error e =>
      { result := Except.error e, proposeCalls := []
        finalEngine := svc.engine, callerRequest := request }
  | Except.ok _ =>
      let enhancedRequest := enhanceRequest request
      { result := svc.engine.propose enhancedRequest
        proposeCalls := [enhancedRequest]
        finalEngine := svc.engine, callerRequest := request }

/-- `confirmSlot` from `SchedulingService.ts`, lines 78-108, instrumented:
request validation, then slot validation, then enhancement, then
`engine.book(enhancedRequest, chosenSlot)`; the `catch` rethrows unchanged. -/
def SchedulingService.confirmSlotRun (svc : SchedulingService)
    (parseDate : String → Option Int) (request : MeetingRequest)
    (chosenSlot : TimeWindow) : ConfirmRun :=
  match validateMeetingRequest parseDate request with
  | Except.error e =>
      { result := Except.error e, bookCalls := []
        finalEngine := svc.engine, callerRequest := request }
  | Except.ok _ =>
      match validateTimeWindow parseDate chosenSlot with
      | Except.error e =>
          { result := Except.error e, bookCalls := []
            finalEngine := svc.engine, callerRequest := request }
      | Except.ok _ =>
          let enhancedRequest := enhanceRequest request
          { result := svc.engine.book enhancedRequest chosenSlot
            bookCalls := [(enhancedRequest, chosenSlot)]
            finalEngine := svc.engine, callerRequest := request }

/-- The value `proposeSlots` returns (or the error it throws). -/
def SchedulingService.proposeSlots (svc : SchedulingService)
    (parseDate : String → Option Int) (request : MeetingRequest) :
    Except SchedulingError (List Proposal) :=
  (svc.proposeSlotsRun parseDate request).result

/-- The value `confirmSlot` returns (or the error it throws). -/
def SchedulingService.confirmSlot (svc : SchedulingService)
    (parseDate : String → Option Int) (request : MeetingRequest)
    (chosenSlot : TimeWindow) : Except SchedulingError BookingResult :=
  (svc.confirmSlotRun parseDate request chosenSlot).result

/-! ## Concrete fixtures used by witnesses and counterexamples -/

/-- A well-formed attendee. -/
def sampleAttendee : Attendee := { email := "a@x.com" }

/-- A request that passes every validation check (no optional fields). -/
def sampleRequest : MeetingRequest :=
  { subject := "Sync", attendees := [sampleAttendee] }

/-- A date parser under which every string is an invalid date. -/
def noParse : String → Option Int := fun _ => none

/-- A small concrete date parser recognising two ISO strings. -/
def sampleParse : String → Option Int := fun s =>
  if s = "2024-01-15T14:00:00Z" then some 1705327200000
  else if s = "2024-01-15T14:30:00Z" then some 1705329000000
  else none

/-- A slot that is valid under `sampleParse`. -/
def sampleSlot : TimeWindow :=
  { startISO := "2024-01-15T14:00:00Z", endISO := "2024-01-15T14:30:00Z" }

/-- A slot that fails to parse (under `sampleParse` and `noParse`). -/
def badSlot : TimeWindow :=
  { startISO := "not-a-date", endISO := "2024-01-15T14:30:00Z" }

/-- `sampleRequest` with an explicit zero duration: present but falsy. -/
def zeroDurationRequest : MeetingRequest :=
  { sampleRequest with durationMinutes := some 0 }

/-- An engine whose backend is down: both operations raise. -/
def failingEngine : SchedulingEngine :=
  { name := "FailingEngine"
    propose := fun _ => Except.error (SchedulingError.engineFailure "backend down")
    book := fun _ _ => Except.error (SchedulingError.engineFailure "backend down") }

/-! ## Helper lemmas: forward characterization of `validateMeetingRequest` -/

/-- Failing subject check yields its error, whatever the other fields. -/
theorem validate_subject_error (p : String → Option Int) (req : MeetingRequest)
    (h : req.subject = "" ∨ (jsTrim req.subject).length = 0) :
    validateMeetingRequest p req = Except.error SchedulingError.subjectRequired := by
  unfold validateMeetingRequest
  rw [if_pos h]

/-- Subject ok, empty attendee list: the attendee error fires second. -/
theorem validate_attendee_error (p : String → Option Int) (req : MeetingRequest)
    (hs : ¬ (req.subject = "" ∨ (jsTrim req.subject).length = 0))
    (h : req.attendees.length = 0) :
    validateMeetingRequest p req = Except.error SchedulingError.attendeeRequired := by
  unfold validateMeetingRequest
  rw [if_neg hs, if_pos h]

/-- Subject and attendee checks ok, a first invalid email found: the email
error fires third, naming that attendee's email. -/
theorem validate_email_error (p : String → Option Int) (req : MeetingRequest)
    (hs : ¬ (req.subject = "" ∨ (jsTrim req.subject).length = 0))
    (ha : ¬ req.attendees.length = 0) (a : Attendee)
    (hf : findInvalidAttendee req.attendees = some a) :
    validateMeetingRequest p req =
      Except.error (SchedulingError.invalidEmail a.email) := by
  unfold validateMeetingRequest
  rw [if_neg hs, if_neg ha, hf]

/-- First three checks ok and the duration guard (truthy and ≤ 0) holds:
the duration error fires fourth. -/
theorem validate_duration_error (p : String → Option Int) (req : MeetingRequest)
    (hs : ¬ (req.subject = "" ∨ (jsTrim req.subject).length = 0))
    (ha : ¬ req.attendees.length = 0)
    (hf : findInvalidAttendee req.attendees = none)
    (hd : optIntTruthy req.durationMinutes ∧ req.durationMinutes.getD 0 ≤ 0) :
    validateMeetingRequest p req =
      Except.error SchedulingError.durationNotPositive := by
  unfold validateMeetingRequest
  rw [if_neg hs, if_neg ha, hf, if_pos hd]

/-- First four checks ok, both bounds truthy and parsing with
`earliest ≥ latest`: the range error fires fifth. -/
theorem validate_range_error (p : String → Option Int) (req : MeetingRequest)
    (hs : ¬ (req.subject = "" ∨ (jsTrim req.subject).length = 0))
    (ha : ¬ req.attendees.length = 0)
    (hf : findInvalidAttendee req.attendees = none)
    (hd : ¬ (optIntTruthy req.durationMinutes ∧ req.durationMinutes.getD 0 ≤ 0))
    (hw : optStrTruthy req.earliestISO ∧ optStrTruthy req.latestISO)
    (e l : Int) (hpe : p (req.earliestISO.getD "") = some e)
    (hpl : p (req.latestISO.getD "") = some l) (hge : e ≥ l) :
    validateMeetingRequest p req =
      Except.error SchedulingError.earliestNotBeforeLatest := by
  unfold validateMeetingRequest
  rw [if_neg hs, if_neg ha, hf, if_neg hd, if_pos hw, hpe, hpl]
  simp [hge]

/-- All five checks pass when the bounds guard is off (either bound absent
or empty): validation succeeds. -/
theorem validate_ok_no_bounds (p : String → Option Int) (req : MeetingRequest)
    (hs : ¬ (req.subject = "" ∨ (jsTrim req.subject).length = 0))
    (ha : ¬ req.attendees.length = 0)
    (hf : findInvalidAttendee req.attendees = none)
    (hd : ¬ (optIntTruthy req.durationMinutes ∧ req.durationMinutes.getD 0 ≤ 0))
    (hw : ¬ (optStrTruthy req.earliestISO ∧ optStrTruthy req.latestISO)) :
    validateMeetingRequest p req = Except.ok () := by
  unfold validateMeetingRequest
  rw [if_neg hs, if_neg ha, hf, if_neg hd, if_neg hw]

/-- Both bounds truthy but at least one does not parse: the `>=` comparison
against an invalid date is false, so validation succeeds. -/
theorem validate_ok_parse_fail (p : String → Option Int) (req : MeetingRequest)
    (hs : ¬ (req.subject = "" ∨ (jsTrim req.subject).length = 0))
    (ha : ¬ req.attendees.length = 0)
    (hf : findInvalidAttendee req.attendees = none)
    (hd : ¬ (optIntTruthy req.durationMinutes ∧ req.durationMinutes.getD 0 ≤ 0))
    (hw : optStrTruthy req.earliestISO ∧ optStrTruthy req.latestISO)
    (hp : p (req.earliestISO.getD "") = none ∨ p (req.latestISO.getD "") = none) :
    validateMeetingRequest p req = Except.ok () := by
  unfold validateMeetingRequest
  rw [if_neg hs, if_neg ha, hf, if_neg hd, if_pos hw]
  rcases hp with hp | hp
  · rw [hp]
  · rw [hp]
    cases p (req.earliestISO.getD "") <;> simp

/-- Both bounds truthy, both parse, `earliest < latest`: validation
succeeds. -/
theorem validate_ok_bounds_lt (p : String → Option Int) (req : MeetingRequest)
    (hs : ¬ (req.subject = "" ∨ (jsTrim req.subject).length = 0))
    (ha : ¬ req.attendees.length = 0)
    (hf : findInvalidAttendee req.attendees = none)
    (hd : ¬ (optIntTruthy req.durationMinutes ∧ req.durationMinutes.getD 0 ≤ 0))
    (hw : optStrTruthy req.earliestISO ∧ optStrTruthy req.latestISO)
    (e l : Int) (hpe : p (req.earliestISO.getD "") = some e)
    (hpl : p (req.latestISO.getD "") = some l) (hlt : e < l) :
    validateMeetingRequest p req = Except.ok () := by
  unfold validateMeetingRequest
  rw [if_neg hs, if_neg ha, hf, if_neg hd, if_pos hw, hpe, hpl]
  simp [hlt.not_le]

/-- If the duration guard holds, validation cannot succeed (one of the
first four checks raises). -/
theorem validate_ne_ok_of_duration_guard (p : String → Option Int)
    (req : MeetingRequest)
    (hd : optIntTruthy req.durationMinutes ∧ req.durationMinutes.getD 0 ≤ 0) :
    validateMeetingRequest p req ≠ Except.ok () := by
  by_cases hs : (req.subject = "" ∨ (jsTrim req.subject).length = 0)
  · rw [validate_subject_error p req hs]; simp
  · by_cases ha : req.attendees.length = 0
    · rw [validate_attendee_error p req hs ha]; simp
    · cases hf : findInvalidAttendee req.attendees with
      | some a => rw [validate_email_error p req hs ha a hf]; simp
      | none => rw [validate_duration_error p req hs ha hf hd]; simp

/-! ## Helper lemmas: `validateTimeWindow` -/

/-- When either bound of the slot fails to parse, slot validation raises
the format error. -/
theorem validateTimeWindow_parse_fail (p : String → Option Int)
    (slot : TimeWindow)
    (h : p slot.startISO = none ∨ p slot.endISO = none) :
    validateTimeWindow p slot = Except.error SchedulingError.invalidSlotFormat := by
  unfold validateTimeWindow
  rcases h with h | h
  · rw [h]
  · rw [h]
    cases p slot.startISO <;> rfl

/-- When both bounds parse but `start ≥ end`, slot validation raises the
ordering error. -/
theorem validateTimeWindow_ge (p : String → Option Int) (slot : TimeWindow)
    (s e : Int) (hps : p slot.startISO = some s) (hpe : p slot.endISO = some e)
    (hge : s ≥ e) :
    validateTimeWindow p slot = Except.error SchedulingError.startNotBeforeEnd := by
  unfold validateTimeWindow
  rw [hps, hpe]
  simp [hge]

/-- When both bounds parse and `start < end`, slot validation succeeds. -/
theorem validateTimeWindow_ok (p : String → Option Int) (slot : TimeWindow)
    (s e : Int) (hps : p slot.startISO = some s) (hpe : p slot.endISO = some e)
    (hlt : s < e) :
    validateTimeWindow p slot = Except.ok () := by
  unfold validateTimeWindow
  rw [hps, hpe]
  simp [hlt.not_le]

/-! ## Helper lemmas: the instrumented coordinator operations -/

/-- `proposeSlots` on a request failing validation: the validation error is
thrown and the engine is not called. -/
theorem proposeSlotsRun_error (svc : SchedulingService)
    (p : String → Option Int) (req : MeetingRequest) (e : SchedulingError)
    (h : validateMeetingRequest p req = Except.error e) :
    svc.proposeSlotsRun p req =
      { result := Except.error e, proposeCalls := []
        finalEngine := svc.engine, callerRequest := req } := by
  unfold SchedulingService.proposeSlotsRun
  rw [h]

/-- `proposeSlots` on a request passing validation: the enhanced request is
handed to the engine and the engine's outcome is returned as-is. -/
theorem proposeSlotsRun_ok (svc : SchedulingService)
    (p : String → Option Int) (req : MeetingRequest)
    (h : validateMeetingRequest p req = Except.ok ()) :
    svc.proposeSlotsRun p req =
      { result := svc.engine.propose (enhanceRequest req)
        proposeCalls := [enhanceRequest req]
        finalEngine := svc.engine, callerRequest := req } := by
  unfold SchedulingService.proposeSlotsRun
  rw [h]

/-- `confirmSlot` on a request failing validation: the request error is
thrown first and `book` is not called. -/
theorem confirmSlotRun_request_error (svc : SchedulingService)
    (p : String → Option Int) (req : MeetingRequest) (slot : TimeWindow)
    (e : SchedulingError) (h : validateMeetingRequest p req = Except.error e) :
    svc.confirmSlotRun p req slot =
      { result := Except.error e, bookCalls := []
        finalEngine := svc.engine, callerRequest := req } := by
  unfold SchedulingService.confirmSlotRun
  rw [h]

/-- `confirmSlot` on a valid request with a slot failing validation: the
slot error is thrown and `book` is not called. -/
theorem confirmSlotRun_slot_error (svc : SchedulingService)
    (p : String → Option Int) (req : MeetingRequest) (slot : TimeWindow)
    (e : SchedulingError) (hv : validateMeetingRequest p req = Except.ok ())
    (hw : validateTimeWindow p slot = Except.error e) :
    svc.confirmSlotRun p req slot =
      { result := Except.error e, bookCalls := []
        finalEngine := svc.engine, callerRequest := req } := by
  unfold SchedulingService.confirmSlotRun
  rw [hv]
  simp only []
  rw [hw]

/-- `confirmSlot` on a valid request and valid slot: the enhanced request
and the slot are handed to `book`, whose outcome is returned as-is. -/
theorem confirmSlotRun_ok (svc : SchedulingService)
    (p : String → Option Int) (req : MeetingRequest) (slot : TimeWindow)
    (hv : validateMeetingRequest p req = Except.ok ())
    (hw : validateTimeWindow p slot = Except.ok ()) :
    svc.confirmSlotRun p req slot =
      { result := svc.engine.book (enhanceRequest req) slot
        bookCalls := [(enhanceRequest req, slot)]
        finalEngine := svc.engine, callerRequest := req } := by
  unfold SchedulingService.confirmSlotRun
  rw [hv]
  simp only []
  rw [hw]

/-! ## Helper lemmas: `enhanceRequest` -/

/-- A truthy (non-zero) supplied duration is kept by enhancement. -/
theorem enhanceRequest_some_nonzero (req : MeetingRequest) (d : Int)
    (hd : req.durationMinutes = some d) (h0 : d ≠ 0) :
    (enhanceRequest req).durationMinutes = some d := by
  simp [enhanceRequest, hd, h0]

/-- An absent duration is replaced by the policy default. -/
theorem enhanceRequest_none (req : MeetingRequest)
    (hd : req.durationMinutes = none) :
    (enhanceRequest req).durationMinutes =
      some Policies.scheduling.defaultDurationMinutes := by
  simp [enhanceRequest, hd]

/-- A zero (falsy) duration is replaced by the policy default as well. -/
theorem enhanceRequest_zero (req : MeetingRequest)
    (hd : req.durationMinutes = some 0) :
    (enhanceRequest req).durationMinutes =
      some Policies.scheduling.defaultDurationMinutes := by
  simp [enhanceRequest, hd]

/-- Requests that validated successfully are enhanced to a strictly
positive duration (supplied positive values are kept, absent and zero
values become the default 45). -/
theorem enhance_pos_of_validate_ok (p : String → Option Int)
    (req : MeetingRequest) (hv : validateMeetingRequest p req = Except.ok ()) :
    ∃ d : Int, (enhanceRequest req).durationMinutes = some d ∧ 0 < d := by
  cases hd : req.durationMinutes with
  | none =>
      exact ⟨45, enhanceRequest_none req hd, by norm_num⟩
  | some d =>
      by_cases h0 : d = 0
      · subst h0
        exact ⟨45, enhanceRequest_zero req hd, by norm_num⟩
      · refine ⟨d, enhanceRequest_some_nonzero req d hd h0, ?_⟩
        by_contra hle
        push_neg at hle
        exact validate_ne_ok_of_duration_guard p req
          ⟨by simp [optIntTruthy, hd, h0], by simp [hd]; exact hle⟩ hv

/-! ## More concrete fixtures -/

/-- A request failing the first validation check. -/
def emptySubjectRequest : MeetingRequest :=
  { subject := "", attendees := [sampleAttendee] }

/-- `sampleRequest` with a negative duration. -/
def negativeDurationRequest : MeetingRequest :=
  { sampleRequest with durationMinutes := some (-30) }

/-- `sampleRequest` with present, non-empty, unparsable time bounds. -/
def badBoundsRequest : MeetingRequest :=
  { sampleRequest with
      earliestISO := some "whenever", latestISO := some "soonish" }

/-! ## Claim theorems -/

/-- **C3**: the engine is resolved exactly once, at coordinator
construction, from the `ENABLE_SIDEKICK` toggle: the value `"true"` selects
`SidekickEngine` and any other value (absent and `"false"` included)
selects `GoogleCalendarEngine`; equal toggle values resolve to the same
engine type, the two engine types are distinct, and neither operation ever
changes the resolved engine reference. -/
theorem engine_selection_once :
    (SchedulingService.construct (some "true")).engine = SidekickEngine
    ∧ (∀ t : Option String, t ≠ some "true" →
        (SchedulingService.construct t).engine = GoogleCalendarEngine)
    ∧ (∀ t₁ t₂ : Option String, t₁ = t₂ →
        (SchedulingService.construct t₁).getEngineType =
          (SchedulingService.construct t₂).getEngineType)
    ∧ SidekickEngine.name ≠ GoogleCalendarEngine.name
    ∧ (∀ (svc : SchedulingService) (p : String → Option Int)
        (req : MeetingRequest),
        (svc.proposeSlotsRun p req).finalEngine = svc.engine)
    ∧ (∀ (svc : SchedulingService) (p : String → Option Int)
        (req : MeetingRequest) (slot : TimeWindow),
        (svc.confirmSlotRun p req slot).finalEngine = svc.engine) := by
  refine ⟨rfl, ?_, ?_, ?_, ?_, ?_⟩
  · intro t ht
    simp [SchedulingService.construct, createEngine, ht]
  · intro t₁ t₂ h
    rw [h]
  · simp [SidekickEngine, GoogleCalendarEngine]
  · intro svc p req
    cases h : validateMeetingRequest p req with
    | error e => rw [proposeSlotsRun_error svc p req e h]
    | ok u => cases u; rw [proposeSlotsRun_ok svc p req h]
  · intro svc p req slot
    cases h : validateMeetingRequest p req with
    | error e => rw [confirmSlotRun_request_error svc p req slot e h]
    | ok u =>
      cases u
      cases hw : validateTimeWindow p slot with
      | error e => rw [confirmSlotRun_slot_error svc p req slot e h hw]
      | ok u2 => cases u2; rw [confirmSlotRun_ok svc p req slot h hw]

/-- Witness for C3: concrete toggle values `none` and `"false"` both
resolve to the Google Calendar engine. -/
theorem engine_selection_once_witness :
    (SchedulingService.construct none).engine = GoogleCalendarEngine
    ∧ (SchedulingService.construct (some "false")).engine =
        GoogleCalendarEngine :=
  ⟨engine_selection_once.2.1 none (by decide),
   engine_selection_once.2.1 (some "false") (by decide)⟩

/-- **C8**: neither operation mutates the caller-supplied request: after
`proposeSlots` and after `confirmSlot` the caller's request object holds
exactly the value passed in; the enhanced request is a separate, derived
value. -/
theorem caller_request_unmutated (svc : SchedulingService)
    (p : String → Option Int) (req : MeetingRequest) (slot : TimeWindow) :
    (svc.proposeSlotsRun p req).callerRequest = req
    ∧ (svc.confirmSlotRun p req slot).callerRequest = req := by
  constructor
  · cases h : validateMeetingRequest p req with
    | error e => rw [proposeSlotsRun_error svc p req e h]
    | ok u => cases u; rw [proposeSlotsRun_ok svc p req h]
  · cases h : validateMeetingRequest p req with
    | error e => rw [confirmSlotRun_request_error svc p req slot e h]
    | ok u =>
      cases u
      cases hw : validateTimeWindow p slot with
      | error e => rw [confirmSlotRun_slot_error svc p req slot e h hw]
      | ok u2 => cases u2; rw [confirmSlotRun_ok svc p req slot h hw]

/-- **C4**: for a request that passes validation, the engine receives
exactly the enhanced request; its duration is the caller's supplied
positive value when present, and the policy default
(`Policies.scheduling.defaultDurationMinutes = 45`) when absent, while
every other field is carried over unchanged. -/
theorem enhancement_fills_default_duration (svc : SchedulingService)
    (p : String → Option Int) (req : MeetingRequest)
    (hv : validateMeetingRequest p req = Except.ok ()) :
    (svc.proposeSlotsRun p req).proposeCalls = [enhanceRequest req]
    ∧ (∀ d : Int, req.durationMinutes = some d → 0 < d →
        (enhanceRequest req).durationMinutes = some d)
    ∧ (req.durationMinutes = none →
        (enhanceRequest req).durationMinutes =
          some Policies.scheduling.defaultDurationMinutes)
    ∧ Policies.scheduling.defaultDurationMinutes = 45
    ∧ (enhanceRequest req).subject = req.subject
    ∧ (enhanceRequest req).attendees = req.attendees
    ∧ (enhanceRequest req).earliestISO = req.earliestISO
    ∧ (enhanceRequest req).latestISO = req.latestISO
    ∧ (enhanceRequest req).constraints = req.constraints := by
  refine ⟨?_, ?_, ?_, rfl, rfl, rfl, rfl, rfl, rfl⟩
  · rw [proposeSlotsRun_ok svc p req hv]
  · intro d hd hpos
    exact enhanceRequest_some_nonzero req d hd (by omega)
  · intro hd
    exact enhanceRequest_none req hd

/-- Witness for C4: the sample request (no duration supplied) is enhanced
to the policy default and handed to the engine. -/
theorem enhancement_fills_default_duration_witness :
    ((SchedulingService.construct none).proposeSlotsRun noParse
        sampleRequest).proposeCalls = [enhanceRequest sampleRequest]
    ∧ (enhanceRequest sampleRequest).durationMinutes =
        some Policies.scheduling.defaultDurationMinutes :=
  ⟨(enhancement_fills_default_duration (SchedulingService.construct none)
      noParse sampleRequest rfl).1,
   (enhancement_fills_default_duration (SchedulingService.construct none)
      noParse sampleRequest rfl).2.2.1 rfl⟩

/-- **C9**: every request an engine ever receives (through `propose` or
`book`) carries a strictly positive duration: supplied positive values pass
through enhancement unchanged, while absent values and the falsy zero that
the validation guard lets through are replaced by the policy default 45. -/
theorem engine_duration_always_positive :
    (∀ (svc : SchedulingService) (p : String → Option Int)
        (req r : MeetingRequest),
        r ∈ (svc.proposeSlotsRun p req).proposeCalls →
        ∃ d : Int, r.durationMinutes = some d ∧ 0 < d)
    ∧ (∀ (svc : SchedulingService) (p : String → Option Int)
        (req : MeetingRequest) (slot : TimeWindow)
        (c : MeetingRequest × TimeWindow),
        c ∈ (svc.confirmSlotRun p req slot).bookCalls →
        ∃ d : Int, c.1.durationMinutes = some d ∧ 0 < d)
    ∧ (∀ (req : MeetingRequest) (d : Int),
        req.durationMinutes = some d → 0 < d →
        (enhanceRequest req).durationMinutes = some d)
    ∧ (∀ req : MeetingRequest,
        req.durationMinutes = none ∨ req.durationMinutes = some 0 →
        (enhanceRequest req).durationMinutes = some 45) := by
  refine ⟨?_, ?_, ?_, ?_⟩
  · intro svc p req r hr
    cases h : validateMeetingRequest p req with
    | error e =>
        rw [proposeSlotsRun_error svc p req e h] at hr
        simp at hr
    | ok u =>
        cases u
        rw [proposeSlotsRun_ok svc p req h] at hr
        simp at hr
        subst hr
        exact enhance_pos_of_validate_ok p req h
  · intro svc p req slot c hc
    cases h : validateMeetingRequest p req with
    | error e =>
        rw [confirmSlotRun_request_error svc p req slot e h] at hc
        simp at hc
    | ok u =>
        cases u
        cases hw : validateTimeWindow p slot with
        | error e =>
            rw [confirmSlotRun_slot_error svc p req slot e h hw] at hc
            simp at hc
        | ok u2 =>
            cases u2
            rw [confirmSlotRun_ok svc p req slot h hw] at hc
            simp at hc
            subst hc
            exact enhance_pos_of_validate_ok p req h
  · intro req d hd hpos
    exact enhanceRequest_some_nonzero req d hd (by omega)
  · intro req h
    rcases h with h | h
    · rw [enhanceRequest_none req h]
      rfl
    · rw [enhanceRequest_zero req h]
      rfl

/-- Witness for C9: the request the engine receives for
`zeroDurationRequest` carries a positive duration. -/
theorem engine_duration_always_positive_witness :
    ∃ d : Int,
      (enhanceRequest zeroDurationRequest).durationMinutes = some d
      ∧ 0 < d :=
  engine_duration_always_positive.1 (SchedulingService.construct none)
    noParse zeroDurationRequest (enhanceRequest zeroDurationRequest)
    (show enhanceRequest zeroDurationRequest ∈
      [enhanceRequest zeroDurationRequest] by simp)

/-- **C5**: for a valid request (and, for booking, a valid slot), the
coordinator returns exactly the engine's outcome: an engine error is
rethrown unchanged (no retry, no substitution of an empty result) and an
empty proposal sequence is returned as a successful outcome. -/
theorem engine_outcome_propagates (svc : SchedulingService)
    (p : String → Option Int) (req : MeetingRequest) (slot : TimeWindow)
    (hv : validateMeetingRequest p req = Except.ok ())
    (hw : validateTimeWindow p slot = Except.ok ()) :
    ((svc.proposeSlotsRun p req).result =
        svc.engine.propose (enhanceRequest req))
    ∧ (∀ e : SchedulingError,
        svc.engine.propose (enhanceRequest req) = Except.error e →
        (svc.proposeSlotsRun p req).result = Except.error e)
    ∧ (svc.engine.propose (enhanceRequest req) = Except.ok [] →
        (svc.proposeSlotsRun p req).result = Except.ok [])
    ∧ ((svc.confirmSlotRun p req slot).result =
        svc.engine.book (enhanceRequest req) slot)
    ∧ (∀ e : SchedulingError,
        svc.engine.book (enhanceRequest req) slot = Except.error e →
        (svc.confirmSlotRun p req slot).result = Except.error e) := by
  have h1 : (svc.proposeSlotsRun p req).result =
      svc.engine.propose (enhanceRequest req) := by
    rw [proposeSlotsRun_ok svc p req hv]
  have h2 : (svc.confirmSlotRun p req slot).result =
      svc.engine.book (enhanceRequest req) slot := by
    rw [confirmSlotRun_ok svc p req slot hv hw]
  exact ⟨h1, fun e he => h1.trans he, fun he => h1.trans he, h2,
    fun e he => h2.trans he⟩

/-- Witness for C5: a coordinator around `failingEngine` rethrows the
engine's failure from `proposeSlots` unchanged. -/
theorem engine_outcome_propagates_witness :
    (SchedulingService.mk failingEngine).proposeSlots sampleParse
      sampleRequest =
      Except.error (SchedulingError.engineFailure "backend down") :=
  (engine_outcome_propagates (SchedulingService.mk failingEngine)
    sampleParse sampleRequest sampleSlot rfl rfl).2.1
    (SchedulingError.engineFailure "backend down") rfl

/-- **C6**: for a validated request, `confirmSlot` rejects a slot whose
start or end does not parse with the invalid-format error, rejects a parsed
slot with `start ≥ end` with the ordering error, and in both cases the
engine's `book` is never invoked. -/
theorem confirm_slot_validation (svc : SchedulingService)
    (p : String → Option Int) (req : MeetingRequest) (slot : TimeWindow)
    (hv : validateMeetingRequest p req = Except.ok ()) :
    ((p slot.startISO = none ∨ p slot.endISO = none) →
        (svc.confirmSlotRun p req slot).result =
          Except.error SchedulingError.invalidSlotFormat
        ∧ (svc.confirmSlotRun p req slot).bookCalls = [])
    ∧ (∀ s e : Int, p slot.startISO = some s → p slot.endISO = some e →
        s ≥ e →
        (svc.confirmSlotRun p req slot).result =
          Except.error SchedulingError.startNotBeforeEnd
        ∧ (svc.confirmSlotRun p req slot).bookCalls = []) := by
  constructor
  · intro hp
    rw [confirmSlotRun_slot_error svc p req slot _ hv
      (validateTimeWindow_parse_fail p slot hp)]
    exact ⟨rfl, rfl⟩
  · intro s e hps hpe hge
    rw [confirmSlotRun_slot_error svc p req slot _ hv
      (validateTimeWindow_ge p slot s e hps hpe hge)]
    exact ⟨rfl, rfl⟩

/-- Witness for C6: confirming `badSlot` (unparsable start) fails with the
invalid-format error and books nothing. -/
theorem confirm_slot_validation_witness :
    ((SchedulingService.construct none).confirmSlotRun sampleParse
        sampleRequest badSlot).result =
      Except.error SchedulingError.invalidSlotFormat
    ∧ ((SchedulingService.construct none).confirmSlotRun sampleParse
        sampleRequest badSlot).bookCalls = [] :=
  (confirm_slot_validation (SchedulingService.construct none) sampleParse
    sampleRequest badSlot rfl).1 (Or.inl rfl)

/-- **C7**: `confirmSlot` returns the engine's `BookingResult` unchanged
(the event id is neither re-derived nor mutated), and both shipped engines
return a successful booking whose event id is a non-empty string. -/
theorem booking_result_unchanged (svc : SchedulingService)
    (p : String → Option Int) (req : MeetingRequest) (slot : TimeWindow)
    (hv : validateMeetingRequest p req = Except.ok ())
    (hw : validateTimeWindow p slot = Except.ok ()) :
    (svc.confirmSlot p req slot = svc.engine.book (enhanceRequest req) slot)
    ∧ (∀ (r : MeetingRequest) (s : TimeWindow), ∃ b : BookingResult,
        SidekickEngine.book r s = Except.ok b ∧ b.eventId ≠ "")
    ∧ (∀ (r : MeetingRequest) (s : TimeWindow), ∃ b : BookingResult,
        GoogleCalendarEngine.book r s = Except.ok b ∧ b.eventId ≠ "") := by
  refine ⟨?_, ?_, ?_⟩
  · show (svc.confirmSlotRun p req slot).result = _
    rw [confirmSlotRun_ok svc p req slot hv hw]
  · intro r s
    exact ⟨{ eventId := "TBD" }, rfl, by decide⟩
  · intro r s
    exact ⟨{ eventId := "TBD" }, rfl, by decide⟩

/-- Witness for C7: the booked event id surfaced by `confirmSlot` is the
engine's `"TBD"`, untouched. -/
theorem booking_result_unchanged_witness :
    (SchedulingService.construct (some "true")).confirmSlot sampleParse
      sampleRequest sampleSlot = Except.ok { eventId := "TBD" } :=
  ((booking_result_unchanged (SchedulingService.construct (some "true"))
    sampleParse sampleRequest sampleSlot rfl rfl).1).trans rfl

/-- **C10**: when both time bounds are present non-empty strings and at
least one of them does not parse, request validation still succeeds (the
comparison against an invalid date is false) and `proposeSlots` proceeds to
the engine; a parse failure is an error only for `confirmSlot`'s slot
argument. -/
theorem invalid_bounds_pass_validation (svc : SchedulingService)
    (p : String → Option Int) (req : MeetingRequest) (e l : String)
    (hs : ¬ (req.subject = "" ∨ (jsTrim req.subject).length = 0))
    (ha : ¬ req.attendees.length = 0)
    (hf : findInvalidAttendee req.attendees = none)
    (hd : ¬ (optIntTruthy req.durationMinutes ∧
        req.durationMinutes.getD 0 ≤ 0))
    (he : req.earliestISO = some e) (hl : req.latestISO = some l)
    (hne : e ≠ "") (hnl : l ≠ "")
    (hp : p e = none ∨ p l = none) :
    validateMeetingRequest p req = Except.ok ()
    ∧ (svc.proposeSlotsRun p req).proposeCalls = [enhanceRequest req]
    ∧ (svc.proposeSlotsRun p req).result =
        svc.engine.propose (enhanceRequest req)
    ∧ (∀ slot : TimeWindow,
        p slot.startISO = none ∨ p slot.endISO = none →
        validateTimeWindow p slot =
          Except.error SchedulingError.invalidSlotFormat) := by
  have hw : optStrTruthy req.earliestISO ∧ optStrTruthy req.latestISO := by
    constructor <;> simp [optStrTruthy, he, hl, hne, hnl]
  have hok : validateMeetingRequest p req = Except.ok () := by
    apply validate_ok_parse_fail p req hs ha hf hd hw
    rw [he, hl]
    simpa using hp
  refine ⟨hok, ?_, ?_, ?_⟩
  · rw [proposeSlotsRun_ok svc p req hok]
  · rw [proposeSlotsRun_ok svc p req hok]
  · intro slot hps
    exact validateTimeWindow_parse_fail p slot hps

/-- Witness for C10: `badBoundsRequest` has unparsable bounds, passes
validation and reaches the engine. -/
theorem invalid_bounds_pass_validation_witness :
    validateMeetingRequest noParse badBoundsRequest = Except.ok ()
    ∧ ((SchedulingService.construct none).proposeSlotsRun noParse
        badBoundsRequest).proposeCalls = [enhanceRequest badBoundsRequest] := by
  have h := invalid_bounds_pass_validation (SchedulingService.construct none)
    noParse badBoundsRequest "whenever" "soonish" (by decide) (by decide)
    (by decide) (by decide) rfl rfl (by decide) (by decide) (Or.inl rfl)
  exact ⟨h.1, h.2.1⟩

/-- **C1** as frozen is violated by a present-but-zero duration: the claim
says the duration check ("positive when present") fails there and its error
is raised before any engine call, but on `zeroDurationRequest` (duration
`some 0`) validation succeeds and the engine's `propose` IS invoked. -/
theorem validation_order_counterexample :
    zeroDurationRequest.durationMinutes = some 0
    ∧ validateMeetingRequest noParse zeroDurationRequest = Except.ok ()
    ∧ ((SchedulingService.construct none).proposeSlotsRun noParse
        zeroDurationRequest).proposeCalls ≠ [] := by
  refine ⟨rfl, rfl, ?_⟩
  rw [proposeSlotsRun_ok (SchedulingService.construct none) noParse
    zeroDurationRequest rfl]
  simp

/-- **C1** (amended): the validation checks run in the stated order with
JavaScript truthiness guards — subject non-empty after trimming, attendees
non-empty, every attendee email truthy and containing `'@'`, duration
positive when present *and non-zero*, earliest before latest when both
bounds are *truthy and parse* — the first failing check determines the
error whatever the later fields hold, and a validation error is always
raised with no engine call made (for `confirmSlot` as well). -/
theorem validation_order_fail_fast :
    (∀ (p : String → Option Int) (req : MeetingRequest),
        (req.subject = "" ∨ (jsTrim req.subject).length = 0) →
        validateMeetingRequest p req =
          Except.error SchedulingError.subjectRequired)
    ∧ (∀ (p : String → Option Int) (req : MeetingRequest),
        ¬ (req.subject = "" ∨ (jsTrim req.subject).length = 0) →
        req.attendees.length = 0 →
        validateMeetingRequest p req =
          Except.error SchedulingError.attendeeRequired)
    ∧ (∀ (p : String → Option Int) (req : MeetingRequest) (a : Attendee),
        ¬ (req.subject = "" ∨ (jsTrim req.subject).length = 0) →
        ¬ req.attendees.length = 0 →
        findInvalidAttendee req.attendees = some a →
        validateMeetingRequest p req =
          Except.error (SchedulingError.invalidEmail a.email))
    ∧ (∀ (p : String → Option Int) (req : MeetingRequest),
        ¬ (req.subject = "" ∨ (jsTrim req.subject).length = 0) →
        ¬ req.attendees.length = 0 →
        findInvalidAttendee req.attendees = none →
        (optIntTruthy req.durationMinutes ∧
          req.durationMinutes.getD 0 ≤ 0) →
        validateMeetingRequest p req =
          Except.error SchedulingError.durationNotPositive)
    ∧ (∀ (p : String → Option Int) (req : MeetingRequest) (e l : Int),
        ¬ (req.subject = "" ∨ (jsTrim req.subject).length = 0) →
        ¬ req.attendees.length = 0 →
        findInvalidAttendee req.attendees = none →
        ¬ (optIntTruthy req.durationMinutes ∧
          req.durationMinutes.getD 0 ≤ 0) →
        (optStrTruthy req.earliestISO ∧ optStrTruthy req.latestISO) →
        p (req.earliestISO.getD "") = some e →
        p (req.latestISO.getD "") = some l → e ≥ l →
        validateMeetingRequest p req =
          Except.error SchedulingError.earliestNotBeforeLatest)
    ∧ (∀ (svc : SchedulingService) (p : String → Option Int)
        (req : MeetingRequest) (err : SchedulingError),
        validateMeetingRequest p req = Except.error err →
        (svc.proposeSlotsRun p req).result = Except.error err
        ∧ (svc.proposeSlotsRun p req).proposeCalls = []
        ∧ ∀ slot : TimeWindow,
            (svc.confirmSlotRun p req slot).result = Except.error err
            ∧ (svc.confirmSlotRun p req slot).bookCalls = []) := by
  refine ⟨validate_subject_error, validate_attendee_error, ?_, ?_, ?_, ?_⟩
  · intro p req a hs ha hf
    exact validate_email_error p req hs ha a hf
  · intro p req hs ha hf hd
    exact validate_duration_error p req hs ha hf hd
  · intro p req e l hs ha hf hd hw hpe hpl hge
    exact validate_range_error p req hs ha hf hd hw e l hpe hpl hge
  · intro svc p req err hv
    refine ⟨?_, ?_, ?_⟩
    · rw [proposeSlotsRun_error svc p req err hv]
    · rw [proposeSlotsRun_error svc p req err hv]
    · intro slot
      rw [confirmSlotRun_request_error svc p req slot err hv]
      exact ⟨rfl, rfl⟩

/-- Witness for C1 (amended): an empty subject fails first with the subject
error and the engine is never called. -/
theorem validation_order_fail_fast_witness :
    ((SchedulingService.construct none).proposeSlotsRun noParse
        emptySubjectRequest).result =
      Except.error SchedulingError.subjectRequired
    ∧ ((SchedulingService.construct none).proposeSlotsRun noParse
        emptySubjectRequest).proposeCalls = [] := by
  have h := validation_order_fail_fast.2.2.2.2.2
    (SchedulingService.construct none) noParse emptySubjectRequest
    SchedulingError.subjectRequired rfl
  exact ⟨h.1, h.2.1⟩

/-- **C2** as frozen is violated at exactly zero: on `zeroDurationRequest`
(duration present and equal to zero) `confirmSlot` does not fail with the
duration error — it succeeds and the engine's `book` IS invoked. -/
theorem nonpositive_duration_counterexample :
    zeroDurationRequest.durationMinutes = some 0
    ∧ ((SchedulingService.construct none).confirmSlotRun sampleParse
        zeroDurationRequest sampleSlot).result =
        Except.ok { eventId := "TBD" }
    ∧ ((SchedulingService.construct none).confirmSlotRun sampleParse
        zeroDurationRequest sampleSlot).bookCalls ≠ [] := by
  refine ⟨rfl, ?_, ?_⟩
  · rw [confirmSlotRun_ok (SchedulingService.construct none) sampleParse
      zeroDurationRequest sampleSlot rfl rfl]
    rfl
  · rw [confirmSlotRun_ok (SchedulingService.construct none) sampleParse
      zeroDurationRequest sampleSlot rfl rfl]
    simp

/-- **C2** (amended): a present duration that is negative (non-zero and
`≤ 0`) makes `proposeSlots` and `confirmSlot` fail with the
duration-must-be-positive error before any engine call; a duration of
exactly zero is falsy, passes the guard, and is replaced by the policy
default 45 during enhancement. -/
theorem negative_duration_rejected :
    (∀ (svc : SchedulingService) (p : String → Option Int)
        (req : MeetingRequest) (d : Int),
        ¬ (req.subject = "" ∨ (jsTrim req.subject).length = 0) →
        ¬ req.attendees.length = 0 →
        findInvalidAttendee req.attendees = none →
        req.durationMinutes = some d → d < 0 →
        validateMeetingRequest p req =
          Except.error SchedulingError.durationNotPositive
        ∧ (svc.proposeSlotsRun p req).result =
            Except.error SchedulingError.durationNotPositive
        ∧ (svc.proposeSlotsRun p req).proposeCalls = []
        ∧ ∀ slot : TimeWindow,
            (svc.confirmSlotRun p req slot).result =
              Except.error SchedulingError.durationNotPositive
            ∧ (svc.confirmSlotRun p req slot).bookCalls = [])
    ∧ (∀ req : MeetingRequest, req.durationMinutes = some 0 →
        (enhanceRequest req).durationMinutes = some 45) := by
  constructor
  · intro svc p req d hs ha hf hd hneg
    have hguard : optIntTruthy req.durationMinutes ∧
        req.durationMinutes.getD 0 ≤ 0 := by
      refine ⟨?_, ?_⟩
      · rw [hd]
        simp only [optIntTruthy, decide_eq_true_eq]
        omega
      · rw [hd]
        simp only [Option.getD_some]
        omega
    have hv := validate_duration_error p req hs ha hf hguard
    refine ⟨hv, ?_, ?_, ?_⟩
    · rw [proposeSlotsRun_error svc p req _ hv]
    · rw [proposeSlotsRun_error svc p req _ hv]
    · intro slot
      rw [confirmSlotRun_request_error svc p req slot _ hv]
      exact ⟨rfl, rfl⟩
  · intro req h
    rw [enhanceRequest_zero req h]
    rfl

/-- Witness for C2 (amended): a `-30` duration is rejected before the
engine is consulted. -/
theorem negative_duration_rejected_witness :
    validateMeetingRequest noParse negativeDurationRequest =
      Except.error SchedulingError.durationNotPositive
    ∧ ((SchedulingService.construct none).proposeSlotsRun noParse
        negativeDurationRequest).proposeCalls = [] := by
  have h := negative_duration_rejected.1 (SchedulingService.construct none)
    noParse negativeDurationRequest (-30) (by decide) (by decide) (by decide)
    rfl (by norm_num)
  exact ⟨h.1, h.2.2.1⟩

end NouraCore
